import Mathlib

/-!
Verification development for the tradebot backend core.

The definitions below are a shallow embedding of the Python sources:

- `src/backend/risk_calculator.py` (class `RiskCalculator`): commission,
  BNB-requirement, stop-loss and viability computations.  All monetary
  quantities are modelled as exact rationals (`ℚ`); Python float literals
  such as `0.001` are read as the exact decimal they denote.  The reason
  strings produced by `check_trade_viability` carry interpolated numbers
  used only for logging; they are modelled by the inductive
  `ViabilityReason`, one constructor per `return` site.
- `src/backend/trade_logic.py` (class `TradeLogic`): the per-tick state
  machine `update_trade_with_price` with its `_handle_waiting_phase`,
  `_handle_trailing_phase` and `_trigger_exit` helpers.  The Python code
  mutates the aliased store record and returns `(continue, reason)`;
  here the step returns the updated record together with that pair.
  Wall-clock reads (`time.time()`) are passed in as the `now` argument.
  Logging and async callbacks are I/O-free of trading state and omitted.
- `src/backend/shared_state.py` (class `SharedState`): the persisted
  state registry.  The JSON file is abstracted value-per-field as
  `StateFile` (equal dictionaries serialize to equal bytes, and unequal
  field values give unequal bytes); a file on disk is a `FileState`
  which is `missing`, `corrupt` (fails `json.load`) or `parsed`.  A
  stored position record either parses (`RecordParse.good`) or raises in
  `TradeState(**data)` (`RecordParse.bad`).  Python dicts are modelled
  as association lists with Python's assignment semantics
  (`dictInsert`: replace in place, else append).  For the aliasing
  behaviour of `get_trade` / `get_all_trades` a second, reference-level
  model `HeapStore` makes the Python object heap explicit: records live
  in a heap addressed by `Nat` and the trades dict stores addresses, so
  that mutation through a returned reference is observable.
-/

namespace Tradebot

/-- Commission rate without a BNB discount (`RiskCalculator.commission_rate_standard`, 0.1%). -/
def commission_rate_standard : ℚ := 0.001

/-- Commission rate with the BNB discount (`RiskCalculator.commission_rate_with_bnb`, 0.075%). -/
def commission_rate_with_bnb : ℚ := 0.00075

/-- Stop-loss share of the target profit (`RiskCalculator.stop_loss_profit_ratio`). -/
def stop_loss_profit_ratio : ℚ := 0.5

/-- Safety multiplier on the BNB requirement (`RiskCalculator.bnb_safety_multiplier`). -/
def bnb_safety_multiplier : ℚ := 2.5

/-- Result record of `RiskCalculator.calculate_commissions`. -/
structure CommissionCalculation where
  entry_commission_usd : ℚ
  exit_commission_usd : ℚ
  total_commission_usd : ℚ
  entry_commission_bnb : ℚ
  exit_commission_bnb : ℚ
  total_commission_bnb : ℚ
  has_bnb_discount : Bool
  commission_rate_used : ℚ
deriving Repr, DecidableEq

/-- `RiskCalculator.calculate_commissions`: the discount rate applies iff
`bnb_balance > 0.001`; entry and exit commissions are `trade_amount_usd`
times the rate; BNB-denominated amounts are the USD amounts divided by
`bnb_price_usd` when discounted, else zero. -/
def calculate_commissions (trade_amount_usd bnb_balance bnb_price_usd : ℚ) :
    CommissionCalculation :=
  let has_bnb_discount := decide (bnb_balance > 0.001)
  let commission_rate :=
    if has_bnb_discount then commission_rate_with_bnb else commission_rate_standard
  let entry_commission_usd := trade_amount_usd * commission_rate
  let exit_commission_usd := trade_amount_usd * commission_rate
  let total_commission_usd := entry_commission_usd + exit_commission_usd
  { entry_commission_usd := entry_commission_usd
    exit_commission_usd := exit_commission_usd
    total_commission_usd := total_commission_usd
    entry_commission_bnb :=
      if has_bnb_discount then entry_commission_usd / bnb_price_usd else 0
    exit_commission_bnb :=
      if has_bnb_discount then exit_commission_usd / bnb_price_usd else 0
    total_commission_bnb :=
      if has_bnb_discount then total_commission_usd / bnb_price_usd else 0
    has_bnb_discount := has_bnb_discount
    commission_rate_used := commission_rate }

/-- Result record of `RiskCalculator.calculate_bnb_requirement`. -/
structure BNBRequirement where
  required_bnb : ℚ
  required_bnb_with_safety : ℚ
  current_bnb_balance : ℚ
  is_sufficient : Bool
  bnb_price_usd : ℚ
  safety_multiplier : ℚ
deriving Repr, DecidableEq

/-- `RiskCalculator.calculate_bnb_requirement`. -/
def calculate_bnb_requirement (trade_amount_usd current_bnb_balance bnb_price_usd : ℚ) :
    BNBRequirement :=
  let commission_calc :=
    calculate_commissions trade_amount_usd current_bnb_balance bnb_price_usd
  let required_bnb := commission_calc.total_commission_bnb
  let required_bnb_with_safety := required_bnb * bnb_safety_multiplier
  let is_sufficient := decide (current_bnb_balance ≥ required_bnb_with_safety)
  { required_bnb := required_bnb
    required_bnb_with_safety := required_bnb_with_safety
    current_bnb_balance := current_bnb_balance
    is_sufficient := is_sufficient
    bnb_price_usd := bnb_price_usd
    safety_multiplier := bnb_safety_multiplier }

/-- Result record of `RiskCalculator.calculate_stop_loss`. -/
structure StopLossCalculation where
  stop_loss_price : ℚ
  stop_loss_amount_usd : ℚ
  reason : String
  commission_amount : ℚ
  profit_ratio_amount : ℚ
deriving Repr, DecidableEq

/-- `RiskCalculator.calculate_stop_loss`: stop-loss amount is the larger of
the total commission and half the target profit; the reason compares the
chosen amount with the commission term; the price subtracts the per-unit
amount from the entry price. -/
def calculate_stop_loss (entry_price target_profit_usd trade_amount_usd
    bnb_balance bnb_price_usd : ℚ) : StopLossCalculation :=
  let commission_calc := calculate_commissions trade_amount_usd bnb_balance bnb_price_usd
  let commission_amount := commission_calc.total_commission_usd
  let profit_ratio_amount := target_profit_usd * stop_loss_profit_ratio
  let stop_loss_amount_usd := max commission_amount profit_ratio_amount
  let reason :=
    if stop_loss_amount_usd = commission_amount then "commission_based"
    else "profit_ratio_based"
  let btc_quantity := trade_amount_usd / entry_price
  let stop_loss_per_unit := stop_loss_amount_usd / btc_quantity
  let stop_loss_price := entry_price - stop_loss_per_unit
  { stop_loss_price := stop_loss_price
    stop_loss_amount_usd := stop_loss_amount_usd
    reason := reason
    commission_amount := commission_amount
    profit_ratio_amount := profit_ratio_amount }

/-- Result record of `RiskCalculator.calculate_trailing_thresholds`. -/
structure TrailingThresholds where
  target_profit_usd : ℚ
  trailing_activation_usd : ℚ
  trailing_amount_usd : ℚ
  trailing_percent : ℚ
  minimum_exit_profit_usd : ℚ
deriving Repr, DecidableEq

/-- `RiskCalculator.calculate_trailing_thresholds`. -/
def calculate_trailing_thresholds (target_profit_usd trailing_percent : ℚ) :
    TrailingThresholds :=
  let trailing_amount := target_profit_usd * (trailing_percent / 100)
  { target_profit_usd := target_profit_usd
    trailing_activation_usd := target_profit_usd
    trailing_amount_usd := trailing_amount
    trailing_percent := trailing_percent
    minimum_exit_profit_usd := target_profit_usd - trailing_amount }

/-- One constructor per `return` site of `RiskCalculator.check_trade_viability`;
the Python reason strings additionally interpolate numbers used only for
logging. -/
inductive ViabilityReason where
  | amount_too_small
  | insufficient_bnb
  | stop_loss_too_large
  | poor_risk_reward
  | trade_viable
deriving Repr, DecidableEq

/-- The `details` dictionary built incrementally by
`RiskCalculator.check_trade_viability`; keys absent at an early return are
`none`. -/
structure ViabilityDetails where
  commissions : Option CommissionCalculation
  bnb_requirement : Option BNBRequirement
  stop_loss : Option StopLossCalculation
  trailing : Option TrailingThresholds
  risk_reward_ratio : Option ℚ
deriving Repr, DecidableEq

/-- `RiskCalculator.check_trade_viability` returning
`(is_viable, reason, details)`. -/
def check_trade_viability (trade_amount_usd target_profit_usd entry_price
    current_bnb_balance bnb_price_usd min_trade_amount : ℚ) :
    Bool × ViabilityReason × ViabilityDetails :=
  if trade_amount_usd < min_trade_amount then
    (false, ViabilityReason.amount_too_small, ⟨none, none, none, none, none⟩)
  else
    let commission_calc :=
      calculate_commissions trade_amount_usd current_bnb_balance bnb_price_usd
    let bnb_req :=
      calculate_bnb_requirement trade_amount_usd current_bnb_balance bnb_price_usd
    if bnb_req.is_sufficient = false then
      (false, ViabilityReason.insufficient_bnb,
        ⟨some commission_calc, some bnb_req, none, none, none⟩)
    else
      let stop_loss_calc := calculate_stop_loss entry_price target_profit_usd
        trade_amount_usd current_bnb_balance bnb_price_usd
      let stop_loss_percent :=
        ((entry_price - stop_loss_calc.stop_loss_price) / entry_price) * 100
      if stop_loss_percent > 10 then
        (false, ViabilityReason.stop_loss_too_large,
          ⟨some commission_calc, some bnb_req, some stop_loss_calc, none, none⟩)
      else
        let trailing := calculate_trailing_thresholds target_profit_usd 20
        let rr := target_profit_usd / stop_loss_calc.stop_loss_amount_usd
        if rr < 1.5 then
          (false, ViabilityReason.poor_risk_reward,
            ⟨some commission_calc, some bnb_req, some stop_loss_calc, some trailing, some rr⟩)
        else
          (true, ViabilityReason.trade_viable,
            ⟨some commission_calc, some bnb_req, some stop_loss_calc, some trailing, some rr⟩)

/-- `TradePhase` from `trade_logic.py`; `waiting` is `WAITING_PROFIT`. -/
inductive TradePhase where
  | entering
  | waiting
  | trailing
  | exiting
  | completed
deriving Repr, DecidableEq

/-- The `TradeState` dataclass of `shared_state.py`.  `status` holds one of
the `TradePhase` values (stored as its string in Python). -/
structure TradeState where
  trade_id : String
  symbol : String
  side : String
  quantity : ℚ
  entry_price : ℚ
  current_price : ℚ
  entry_time : ℚ
  target_profit_usd : ℚ
  current_profit_usd : ℚ
  max_profit_usd : ℚ
  trailing_active : Bool
  trailing_threshold : ℚ
  stop_loss_price : ℚ
  stop_loss_reason : String
  bnb_sufficient : Bool
  estimated_commission : ℚ
  status : TradePhase
  last_update : ℚ
deriving Repr, DecidableEq

/-- `TradeLogic._trigger_exit`: set the phase to `exiting` (the store write
also bumps `last_update`). -/
def trigger_exit (trade : TradeState) (now : ℚ) : TradeState :=
  { trade with status := TradePhase.exiting, last_update := now }

/-- `TradeLogic._handle_waiting_phase`: on reaching the target profit,
activate trailing and initialise `max_profit_usd` to the current profit. -/
def handle_waiting_phase (trade : TradeState) (current_profit_usd now : ℚ) :
    TradeState × Bool × Option String :=
  if current_profit_usd ≥ trade.target_profit_usd then
    ({ trade with
        trailing_active := true
        max_profit_usd := current_profit_usd
        status := TradePhase.trailing
        last_update := now }, true, none)
  else
    (trade, true, none)

/-- `TradeLogic._handle_trailing_phase`: raise `max_profit_usd` if exceeded,
then exit on `trailing_stop` (profit fell to `max - threshold`) or else on
`profit_protection` (profit fell to `target - 0.5*threshold`). -/
def handle_trailing_phase (trade : TradeState) (current_profit_usd now : ℚ) :
    TradeState × Bool × Option String :=
  let trade2 :=
    if trade.max_profit_usd < current_profit_usd then
      { trade with max_profit_usd := current_profit_usd, last_update := now }
    else trade
  let trailing_exit_level := trade2.max_profit_usd - trade2.trailing_threshold
  let minimum_acceptable_profit :=
    trade2.target_profit_usd - trade2.trailing_threshold * 0.5
  if current_profit_usd ≤ trailing_exit_level ∨
      current_profit_usd ≤ minimum_acceptable_profit then
    let reason :=
      if current_profit_usd ≤ trailing_exit_level then "trailing_stop"
      else "profit_protection"
    (trigger_exit trade2 now, false, some reason)
  else
    (trade2, true, none)

/-- `TradeLogic.update_trade_with_price` acting on an already-fetched record:
update price and profit, check the stop-loss first, then dispatch on the
phase.  Returns the updated record plus `(continue_trade, exit_reason)`. -/
def update_trade_with_price (trade : TradeState) (current_price now : ℚ) :
    TradeState × Bool × Option String :=
  let trade1 := { trade with current_price := current_price }
  let profit_per_btc := current_price - trade1.entry_price
  let current_profit_usd := profit_per_btc * trade1.quantity
  let trade2 := { trade1 with current_profit_usd := current_profit_usd }
  if current_price ≤ trade2.stop_loss_price then
    (trigger_exit trade2 now, false, some "stop_loss")
  else
    match trade2.status with
    | TradePhase.waiting => handle_waiting_phase trade2 current_profit_usd now
    | TradePhase.trailing => handle_trailing_phase trade2 current_profit_usd now
    | _ => ({ trade2 with last_update := now }, true, none)

/-- Lookup in a Python dict modelled as an association list (first — and by
the key-uniqueness of dicts, only — binding wins). -/
def dictGet {β : Type} : List (String × β) → String → Option β
  | [], _ => none
  | pr :: tl, k => if pr.1 = k then some pr.2 else dictGet tl k

/-- Python dict assignment `d[k] = v`: replace the binding in place when the
key is present, otherwise append a new binding. -/
def dictInsert {β : Type} : List (String × β) → String → β → List (String × β)
  | [], k, v => [(k, v)]
  | pr :: tl, k, v => if pr.1 = k then (k, v) :: tl else pr :: dictInsert tl k v

/-- The `SystemState` dataclass of `shared_state.py` (in-memory state). -/
structure SystemState where
  active_trades : List (String × TradeState)
  market_data : List (String × ℚ)
  balance_data : List (String × ℚ)
  last_update : ℚ
  bot_running : Bool
  websocket_connected : Bool
deriving Repr, DecidableEq

/-- Outcome of parsing one serialized position record: `TradeState(**data)`
either succeeds or raises. -/
inductive RecordParse where
  | good (t : TradeState)
  | bad
deriving Repr, DecidableEq

/-- The JSON dictionary written by `SharedState.save_state`, field per key.
Equal dictionaries serialize to byte-identical files and differing scalar
fields give differing bytes, so file-content equality is modelled as
equality of this record. -/
structure StateFile where
  active_trades : List (String × RecordParse)
  market_data : List (String × ℚ)
  balance_data : List (String × ℚ)
  last_update : ℚ
  bot_running : Bool
  websocket_connected : Bool
  saved_at : ℚ
deriving Repr, DecidableEq

/-- A state file on disk: absent, unreadable as JSON, or parsed. -/
inductive FileState where
  | missing
  | corrupt
  | parsed (f : StateFile)
deriving Repr, DecidableEq

/-- True when some serialized record raises in `TradeState(**data)`. -/
def hasBadRecord (records : List (String × RecordParse)) : Bool :=
  records.any fun pr =>
    match pr.2 with
    | RecordParse.bad => true
    | RecordParse.good _ => false

/-- The records that parse, in file order. -/
def goodRecords (records : List (String × RecordParse)) :
    List (String × TradeState) :=
  records.filterMap fun pr =>
    match pr.2 with
    | RecordParse.good t => some (pr.1, t)
    | RecordParse.bad => none

/-- `SharedState._try_load_backup`: only the per-record-tolerant restore of
`active_trades` (records that fail to parse are skipped); a missing or
unreadable backup leaves the state unchanged, as do all other fields —
flags, market and balance data are untouched on this path. -/
def try_load_backup (s : SystemState) (backup : FileState) : SystemState :=
  match backup with
  | FileState.parsed f => { s with active_trades := goodRecords f.active_trades }
  | _ => s

/-- `SharedState.load_state`: a missing primary returns immediately; an
unreadable primary falls back to the backup; a record that raises while
rebuilding `active_trades` aborts the whole primary load (the loop has no
per-record handler) and likewise falls back to the backup; on success the
state is replaced wholesale with `bot_running` and `websocket_connected`
forced to `false`. -/
def load_state (s : SystemState) (primary backup : FileState) : SystemState :=
  match primary with
  | FileState.missing => s
  | FileState.corrupt => try_load_backup s backup
  | FileState.parsed f =>
    if hasBadRecord f.active_trades then try_load_backup s backup
    else
      { active_trades := goodRecords f.active_trades
        market_data := f.market_data
        balance_data := f.balance_data
        last_update := f.last_update
        bot_running := false
        websocket_connected := false }

/-- The dictionary `SharedState.save_state` serializes (every stored record
serializes back to a parsable one). -/
def serialize_state (s : SystemState) (saved_at : ℚ) : StateFile :=
  { active_trades := s.active_trades.map fun pr => (pr.1, RecordParse.good pr.2)
    market_data := s.market_data
    balance_data := s.balance_data
    last_update := s.last_update
    bot_running := s.bot_running
    websocket_connected := s.websocket_connected
    saved_at := saved_at }

/-- `SharedState.save_state`: under the file lock it first copies the primary
file to the backup path, then sets `last_update` to the current time in the
in-memory state, and writes the serialized dictionary (with the `saved_at`
wall-clock stamp) to the primary path.  Returns the new in-memory state and
the written primary file content; `force` does not change this sequence. -/
def save_state (s : SystemState) (now saved_at : ℚ) : SystemState × StateFile :=
  let s2 := { s with last_update := now }
  (s2, serialize_state s2 saved_at)

/-- `SharedState.add_trade`: unconditional dict assignment under the trade's
id followed by an immediate forced save; the returned flag records that
`save_state(force=True)` was invoked (the method has no failure result). -/
def add_trade (s : SystemState) (trade : TradeState) : SystemState × Bool :=
  ({ s with active_trades := dictInsert s.active_trades trade.trade_id trade }, true)

/-- Reference-level store for the aliasing behaviour of `shared_state.py`:
Python `TradeState` objects live on a heap addressed by `Nat` and the
`active_trades` dict maps ids to object references. -/
structure HeapStore where
  heap : List TradeState
  active_trades : List (String × Nat)
deriving Repr, DecidableEq

/-- Dereference a record object. -/
def heapRead : List TradeState → Nat → Option TradeState
  | [], _ => none
  | t :: _, 0 => some t
  | _ :: tl, Nat.succ a => heapRead tl a

/-- Mutate a record object in place (a no-op on a dangling address). -/
def heapWrite : List TradeState → Nat → TradeState → List TradeState
  | [], _, _ => []
  | _ :: tl, 0, u => u :: tl
  | t :: tl, Nat.succ a, u => t :: heapWrite tl a u

/-- `SharedState.get_trade`: `self._system_state.active_trades.get(trade_id)`
hands out the stored object reference itself — no copy is made. -/
def HeapStore.get_trade (s : HeapStore) (trade_id : String) : Option Nat :=
  dictGet s.active_trades trade_id

/-- `SharedState.get_all_trades`: `self._system_state.active_trades.copy()` is
a shallow dict copy — a fresh dict holding the same object references. -/
def HeapStore.get_all_trades (s : HeapStore) : List (String × Nat) :=
  s.active_trades

/-- Mutating a field of a record object through a reference, as the callers in
`trade_logic.py` do (`trade.current_price = ...`). -/
def HeapStore.mutate (s : HeapStore) (a : Nat) (t : TradeState) : HeapStore :=
  { s with heap := heapWrite s.heap a t }

/-- The store's own record for an id: the dict entry dereferenced. -/
def HeapStore.record (s : HeapStore) (trade_id : String) : Option TradeState :=
  match dictGet s.active_trades trade_id with
  | some a => heapRead s.heap a
  | none => none

/-- A well-formed position record used as a base for concrete scenarios; its
fields mirror one produced by `TradeLogic.create_trade_state`. -/
def base_trade : TradeState :=
  { trade_id := "trade_1"
    symbol := "BTCUSDT"
    side := "BUY"
    quantity := 1
    entry_price := 100
    current_price := 100
    entry_time := 0
    target_profit_usd := 50
    current_profit_usd := 0
    max_profit_usd := 0
    trailing_active := false
    trailing_threshold := 10
    stop_loss_price := 75
    stop_loss_reason := "profit_ratio_based"
    bnb_sufficient := true
    estimated_commission := 2
    status := TradePhase.waiting
    last_update := 0 }

/-- A position in the trailing phase with target profit 50, trailing
threshold 10 and peak profit `m` (entry 100, quantity 1, stop-loss far
below the prices exercised). -/
def trailing_example (m : ℚ) : TradeState :=
  { base_trade with
      status := TradePhase.trailing
      trailing_active := true
      max_profit_usd := m
      stop_loss_price := 0 }

/-- A trailing-phase position whose profit metrics alone would not trigger an
exit (profit 55 at price 85 stays above both trailing levels) but whose
price is below the stop-loss price 90. -/
def stop_loss_witness_trade : TradeState :=
  { base_trade with
      status := TradePhase.trailing
      trailing_active := true
      entry_price := 30
      stop_loss_price := 90
      max_profit_usd := 60 }

/-- Concrete stored record with id "A". -/
def record_a : TradeState := { base_trade with trade_id := "A" }

/-- A different record carrying the same id "A". -/
def record_a2 : TradeState := { record_a with entry_price := 200 }

/-- The record "A" after mutating its current price through a reference. -/
def record_a_mut : TradeState := { record_a with current_price := 200 }

/-- Fresh in-memory system state. -/
def s_empty : SystemState :=
  { active_trades := []
    market_data := []
    balance_data := []
    last_update := 0
    bot_running := false
    websocket_connected := false }

/-- In-memory system state already holding the record with id "A". -/
def s_one : SystemState := { s_empty with active_trades := [("A", record_a)] }

/-- A state file holding one well-formed position record and one record that
fails to parse. -/
def file_mixed : StateFile :=
  { active_trades := [("A", RecordParse.good record_a), ("B", RecordParse.bad)]
    market_data := []
    balance_data := []
    last_update := 5
    bot_running := true
    websocket_connected := true
    saved_at := 5 }

/-- Reference-level store holding the record "A" at heap address 0. -/
def hs_one : HeapStore :=
  { heap := [record_a]
    active_trades := [("A", 0)] }

/-- The profit a price sample gives a record, as computed at the top of
`update_trade_with_price`: `(current_price - entry_price) * quantity`. -/
def computed_profit (trade : TradeState) (price : ℚ) : ℚ :=
  (price - trade.entry_price) * trade.quantity

/-- A record as it stands after the price and profit writes at the top of
`update_trade_with_price`, before any exit or phase logic. -/
def priced_trade (trade : TradeState) (price : ℚ) : TradeState :=
  { trade with
      current_price := price
      current_profit_usd := computed_profit trade price }

/-! Theorems.  Shared helper lemmas come first, then one theorem per claim
with its witness or counterexample. -/

/-- On a tick at or below the stop-loss price, the step exits with reason
"stop_loss" and the record only gets the price/profit writes plus the
`exiting` phase. -/
theorem update_trade_stop_eq (trade : TradeState) (price now : ℚ)
    (h : price ≤ trade.stop_loss_price) :
    update_trade_with_price trade price now =
      (trigger_exit (priced_trade trade price) now, false, some "stop_loss") := by
  simp [update_trade_with_price, priced_trade, computed_profit, h]

/-- On a tick above the stop-loss price in the trailing phase, the step is
the trailing handler applied to the freshly priced record. -/
theorem update_trade_trailing_eq (trade : TradeState) (price now : ℚ)
    (hst : trade.status = TradePhase.trailing)
    (hsl : trade.stop_loss_price < price) :
    update_trade_with_price trade price now =
      handle_trailing_phase (priced_trade trade price)
        (computed_profit trade price) now := by
  have hns : ¬ price ≤ trade.stop_loss_price := not_le.mpr hsl
  simp [update_trade_with_price, priced_trade, computed_profit, hst, hns]

/-- On a tick above the stop-loss price in the waiting phase, the step is
the waiting handler applied to the freshly priced record. -/
theorem update_trade_waiting_eq (trade : TradeState) (price now : ℚ)
    (hst : trade.status = TradePhase.waiting)
    (hsl : trade.stop_loss_price < price) :
    update_trade_with_price trade price now =
      handle_waiting_phase (priced_trade trade price)
        (computed_profit trade price) now := by
  have hns : ¬ price ≤ trade.stop_loss_price := not_le.mpr hsl
  simp [update_trade_with_price, priced_trade, computed_profit, hst, hns]

/-- Behaviour of the trailing handler: the peak profit becomes the maximum of
the old peak and the current profit, the current-profit field is untouched,
and the decision compares the current profit first against the trailing exit
level and then against the minimum acceptable profit. -/
theorem handle_trailing_phase_spec (trade : TradeState) (p now : ℚ) :
    (handle_trailing_phase trade p now).1.max_profit_usd =
        max trade.max_profit_usd p
    ∧ (handle_trailing_phase trade p now).1.current_profit_usd =
        trade.current_profit_usd
    ∧ (handle_trailing_phase trade p now).2 =
        (if p ≤ max trade.max_profit_usd p - trade.trailing_threshold then
          (false, some "trailing_stop")
        else if p ≤ trade.target_profit_usd - trade.trailing_threshold * 0.5 then
          (false, some "profit_protection")
        else (true, none))
    ∧ ((handle_trailing_phase trade p now).2.1 = true →
        (handle_trailing_phase trade p now).1.status = trade.status) := by
  by_cases h1 : trade.max_profit_usd < p
  · simp only [handle_trailing_phase, trigger_exit, if_pos h1,
      max_eq_right (le_of_lt h1)]
    split_ifs <;> simp_all
  · simp only [handle_trailing_phase, trigger_exit, if_neg h1,
      max_eq_left (not_lt.mp h1)]
    split_ifs <;> simp_all

/-- Dict lookup after dict assignment finds the assigned value. -/
theorem dictGet_dictInsert {β : Type} (rs : List (String × β)) (k : String) (v : β) :
    dictGet (dictInsert rs k v) k = some v := by
  induction rs with
  | nil => simp [dictInsert, dictGet]
  | cons pr tl ih =>
    by_cases h : pr.1 = k
    · simp [dictInsert, dictGet, h]
    · simp [dictInsert, dictGet, h, ih]

/-- Dereferencing a live address after writing it yields the written record. -/
theorem heapRead_heapWrite (l : List TradeState) (a : Nat) (u : TradeState)
    (h : a < l.length) : heapRead (heapWrite l a u) a = some u := by
  induction l generalizing a with
  | nil => simp at h
  | cons t tl ih =>
    cases a with
    | zero => simp [heapWrite, heapRead]
    | succ n =>
      simp only [heapWrite, heapRead]
      exact ih n (Nat.lt_of_succ_lt_succ h)

/-- C2: for a trailing-phase record sampled above its stop-loss price, one
step first raises the peak profit to `max maxProfitUsd currentProfitUsd`,
then exits with "trailing_stop" when the profit is at most the updated peak
minus the trailing threshold, else with "profit_protection" when it is at
most `targetProfitUsd - 0.5 * threshold`, else continues; a simultaneous hit
of both conditions yields "trailing_stop".  Concretely with target 50 and
threshold 10: from peak 60 the exit fires exactly once the profit reaches 50
(reason "trailing_stop"), and from peak 52 exactly once it reaches 45
(reason "profit_protection"). -/
theorem c2_trailing_phase_rule (trade : TradeState) (price now : ℚ)
    (hst : trade.status = TradePhase.trailing)
    (hsl : trade.stop_loss_price < price) :
    (update_trade_with_price trade price now).1.max_profit_usd =
        max trade.max_profit_usd (computed_profit trade price)
    ∧ (computed_profit trade price ≤
          max trade.max_profit_usd (computed_profit trade price) -
            trade.trailing_threshold →
        (update_trade_with_price trade price now).2 =
          (false, some "trailing_stop"))
    ∧ (¬ (computed_profit trade price ≤
          max trade.max_profit_usd (computed_profit trade price) -
            trade.trailing_threshold) →
        computed_profit trade price ≤
          trade.target_profit_usd - trade.trailing_threshold * 0.5 →
        (update_trade_with_price trade price now).2 =
          (false, some "profit_protection"))
    ∧ (¬ (computed_profit trade price ≤
          max trade.max_profit_usd (computed_profit trade price) -
            trade.trailing_threshold) →
        ¬ (computed_profit trade price ≤
          trade.target_profit_usd - trade.trailing_threshold * 0.5) →
        (update_trade_with_price trade price now).2 = (true, none))
    ∧ (update_trade_with_price (trailing_example 60) 150 0).2 =
        (false, some "trailing_stop")
    ∧ (update_trade_with_price (trailing_example 60) 151 0).2 = (true, none)
    ∧ (update_trade_with_price (trailing_example 52) 145 0).2 =
        (false, some "profit_protection")
    ∧ (update_trade_with_price (trailing_example 52) 146 0).2 = (true, none) := by
  have heq := update_trade_trailing_eq trade price now hst hsl
  have hspec := handle_trailing_phase_spec (priced_trade trade price)
    (computed_profit trade price) now
  have hproj : (priced_trade trade price).max_profit_usd = trade.max_profit_usd
      ∧ (priced_trade trade price).trailing_threshold = trade.trailing_threshold
      ∧ (priced_trade trade price).target_profit_usd = trade.target_profit_usd := by
    refine ⟨?_, ?_, ?_⟩ <;> simp [priced_trade]
  rw [hproj.1, hproj.2.1, hproj.2.2] at hspec
  rw [heq]
  refine ⟨hspec.1, ?_, ?_, ?_, ?_, ?_, ?_, ?_⟩
  · intro hcond
    rw [hspec.2.2.1, if_pos hcond]
  · intro h1 h2
    rw [hspec.2.2.1, if_neg h1, if_pos h2]
  · intro h1 h2
    rw [hspec.2.2.1, if_neg h1, if_neg h2]
  · norm_num [update_trade_with_price, handle_trailing_phase, trigger_exit,
      trailing_example, base_trade]
  · norm_num [update_trade_with_price, handle_trailing_phase, trigger_exit,
      trailing_example, base_trade]
  · norm_num [update_trade_with_price, handle_trailing_phase, trigger_exit,
      trailing_example, base_trade]
  · norm_num [update_trade_with_price, handle_trailing_phase, trigger_exit,
      trailing_example, base_trade]

/-- Witness for C2: the trailing-phase record with peak profit 60 sampled at
profit 50 (price 150) exits with reason "trailing_stop". -/
theorem c2_witness :
    (trailing_example 60).status = TradePhase.trailing
    ∧ (trailing_example 60).stop_loss_price < 150
    ∧ computed_profit (trailing_example 60) 150 ≤
        max (trailing_example 60).max_profit_usd
          (computed_profit (trailing_example 60) 150) -
          (trailing_example 60).trailing_threshold
    ∧ (update_trade_with_price (trailing_example 60) 150 0).2 =
        (false, some "trailing_stop") :=
  ⟨rfl, by norm_num [trailing_example, base_trade],
    by norm_num [computed_profit, trailing_example, base_trade, max_def],
    (c2_trailing_phase_rule (trailing_example 60) 150 0 rfl
        (by norm_num [trailing_example, base_trade])).2.1
      (by norm_num [computed_profit, trailing_example, base_trade, max_def])⟩

/-- C4: once a record is in the trailing phase, a step never lowers the peak
profit; on any trailing-phase tick above the stop-loss price the updated
record satisfies `current_profit_usd ≤ max_profit_usd`; and the transition
out of the waiting phase into trailing initialises the peak to the current
profit. -/
theorem c4_trailing_peak_invariant (trade : TradeState) (price now : ℚ) :
    (trade.status = TradePhase.trailing →
        trade.max_profit_usd ≤
          (update_trade_with_price trade price now).1.max_profit_usd)
    ∧ (trade.status = TradePhase.trailing → trade.stop_loss_price < price →
        (update_trade_with_price trade price now).1.current_profit_usd ≤
          (update_trade_with_price trade price now).1.max_profit_usd)
    ∧ (trade.status = TradePhase.waiting →
        (update_trade_with_price trade price now).1.status =
          TradePhase.trailing →
        (update_trade_with_price trade price now).1.max_profit_usd =
          (update_trade_with_price trade price now).1.current_profit_usd) := by
  refine ⟨?_, ?_, ?_⟩
  · intro hst
    by_cases hsl : price ≤ trade.stop_loss_price
    · rw [update_trade_stop_eq trade price now hsl]
      simp [trigger_exit, priced_trade]
    · have heq := update_trade_trailing_eq trade price now hst (not_le.mp hsl)
      have hspec := handle_trailing_phase_spec (priced_trade trade price)
        (computed_profit trade price) now
      rw [heq, hspec.1]
      simp only [priced_trade]
      exact le_max_left _ _
  · intro hst hsl
    have heq := update_trade_trailing_eq trade price now hst hsl
    have hspec := handle_trailing_phase_spec (priced_trade trade price)
      (computed_profit trade price) now
    rw [heq, hspec.1, hspec.2.1]
    simp only [priced_trade]
    exact le_max_right _ _
  · intro hst hpost
    by_cases hsl : price ≤ trade.stop_loss_price
    · rw [update_trade_stop_eq trade price now hsl] at hpost
      simp [trigger_exit] at hpost
    · have heq := update_trade_waiting_eq trade price now hst (not_le.mp hsl)
      rw [heq] at hpost ⊢
      by_cases htgt : trade.target_profit_usd ≤ computed_profit trade price
      · simp [handle_waiting_phase, htgt, priced_trade]
      · simp [handle_waiting_phase, htgt, priced_trade, hst] at hpost

/-- Witness for C4: a trailing-phase tick above the stop-loss price leaves
the peak profit at or above the current profit. -/
theorem c4_witness :
    (trailing_example 60).status = TradePhase.trailing
    ∧ (trailing_example 60).stop_loss_price < 151
    ∧ (update_trade_with_price (trailing_example 60) 151 0).1.current_profit_usd ≤
        (update_trade_with_price (trailing_example 60) 151 0).1.max_profit_usd :=
  ⟨rfl, by norm_num [trailing_example, base_trade],
    (c4_trailing_peak_invariant (trailing_example 60) 151 0).2.1 rfl
      (by norm_num [trailing_example, base_trade])⟩

/-- C1: on every tick, for every stored record and price, if the price is at
or below the record's stop-loss price then `update_trade_with_price` stops
the trade with reason "stop_loss", whatever the phase and whatever the
trailing or profit-protection metrics — the stop-loss check precedes all
phase-specific logic. -/
theorem c1_stop_loss_always_first (trade : TradeState) (price now : ℚ)
    (h : price ≤ trade.stop_loss_price) :
    (update_trade_with_price trade price now).2 = (false, some "stop_loss") := by
  simp [update_trade_with_price, h]

/-- Witness for C1: a trailing-phase position whose profit metrics would not
trigger a trailing or profit-protection exit, sampled below its stop-loss
price, exits with reason "stop_loss". -/
theorem c1_witness :
    (85 : ℚ) ≤ stop_loss_witness_trade.stop_loss_price ∧
      (update_trade_with_price stop_loss_witness_trade 85 0).2 =
        (false, some "stop_loss") :=
  ⟨by norm_num [stop_loss_witness_trade, base_trade],
    c1_stop_loss_always_first stop_loss_witness_trade 85 0
      (by norm_num [stop_loss_witness_trade, base_trade])⟩

/-- C3: for positive entry price, target profit and trade amount, the
stop-loss amount is the larger of the total commission and half the target
profit, the reason is "commission_based" exactly when the commission term
attains the maximum (ties included) and "profit_ratio_based" otherwise, and
the stop-loss price is the entry price minus the amount divided by the
quantity `trade_amount_usd / entry_price`; at entry 60000, target 50, amount
1000 and zero BNB the result is amount 25, reason "profit_ratio_based",
price 58500. -/
theorem c3_calculate_stop_loss_spec (entry_price target_profit_usd
    trade_amount_usd bnb_balance bnb_price_usd : ℚ)
    (he : 0 < entry_price) (ht : 0 < target_profit_usd)
    (ha : 0 < trade_amount_usd) :
    (calculate_stop_loss entry_price target_profit_usd trade_amount_usd
        bnb_balance bnb_price_usd).stop_loss_amount_usd =
      max (calculate_commissions trade_amount_usd bnb_balance
            bnb_price_usd).total_commission_usd (0.5 * target_profit_usd)
    ∧ ((calculate_stop_loss entry_price target_profit_usd trade_amount_usd
          bnb_balance bnb_price_usd).reason = "commission_based" ↔
        0.5 * target_profit_usd ≤ (calculate_commissions trade_amount_usd
          bnb_balance bnb_price_usd).total_commission_usd)
    ∧ ((calculate_stop_loss entry_price target_profit_usd trade_amount_usd
          bnb_balance bnb_price_usd).reason = "profit_ratio_based" ↔
        (calculate_commissions trade_amount_usd bnb_balance
          bnb_price_usd).total_commission_usd < 0.5 * target_profit_usd)
    ∧ (calculate_stop_loss entry_price target_profit_usd trade_amount_usd
          bnb_balance bnb_price_usd).stop_loss_price =
        entry_price - (calculate_stop_loss entry_price target_profit_usd
          trade_amount_usd bnb_balance bnb_price_usd).stop_loss_amount_usd /
            (trade_amount_usd / entry_price)
    ∧ calculate_stop_loss 60000 50 1000 0 300 =
        { stop_loss_price := 58500
          stop_loss_amount_usd := 25
          reason := "profit_ratio_based"
          commission_amount := 2
          profit_ratio_amount := 25 } := by
  have hcomm : target_profit_usd * stop_loss_profit_ratio = 0.5 * target_profit_usd := by
    rw [stop_loss_profit_ratio, mul_comm]
  refine ⟨?_, ?_, ?_, ?_, ?_⟩
  · simp [calculate_stop_loss, hcomm]
  · by_cases hle : 0.5 * target_profit_usd ≤
        (calculate_commissions trade_amount_usd bnb_balance
          bnb_price_usd).total_commission_usd
    · simp [calculate_stop_loss, hcomm, max_eq_left hle, hle]
    · have hmax : max (calculate_commissions trade_amount_usd bnb_balance
          bnb_price_usd).total_commission_usd (0.5 * target_profit_usd) ≠
            (calculate_commissions trade_amount_usd bnb_balance
              bnb_price_usd).total_commission_usd := by
        rw [max_eq_right (le_of_lt (not_le.mp hle))]
        exact fun hx => hle (le_of_eq hx)
      simp [calculate_stop_loss, hcomm, hmax, hle]
  · by_cases hle : 0.5 * target_profit_usd ≤
        (calculate_commissions trade_amount_usd bnb_balance
          bnb_price_usd).total_commission_usd
    · simp [calculate_stop_loss, hcomm, max_eq_left hle, not_lt.mpr hle]
    · have hmax : max (calculate_commissions trade_amount_usd bnb_balance
          bnb_price_usd).total_commission_usd (0.5 * target_profit_usd) ≠
            (calculate_commissions trade_amount_usd bnb_balance
              bnb_price_usd).total_commission_usd := by
        rw [max_eq_right (le_of_lt (not_le.mp hle))]
        exact fun hx => hle (le_of_eq hx)
      simp [calculate_stop_loss, hcomm, hmax, not_le.mp hle]
  · simp [calculate_stop_loss]
  · norm_num [calculate_stop_loss, calculate_commissions,
      commission_rate_standard, commission_rate_with_bnb,
      stop_loss_profit_ratio, max_def]

/-- Witness for C3 at entry 60000, target 50, amount 1000, zero BNB balance,
BNB price 300. -/
theorem c3_witness :
    calculate_stop_loss 60000 50 1000 0 300 =
      { stop_loss_price := 58500
        stop_loss_amount_usd := 25
        reason := "profit_ratio_based"
        commission_amount := 2
        profit_ratio_amount := 25 } :=
  (c3_calculate_stop_loss_spec 60000 50 1000 0 300 (by norm_num) (by norm_num)
    (by norm_num)).2.2.2.2

/-- C9: commissions use the discounted rate 0.00075 with fee-asset amounts
equal to the USD amounts divided by the BNB price exactly when the BNB
balance exceeds 0.001; otherwise the standard rate 0.001 applies and all
BNB-denominated amounts are zero; in both cases each leg is the trade
amount times the rate and the total is their sum. -/
theorem c9_calculate_commissions_spec (trade_amount_usd bnb_balance
    bnb_price_usd : ℚ) :
    (calculate_commissions trade_amount_usd bnb_balance
        bnb_price_usd).entry_commission_usd =
      trade_amount_usd * (calculate_commissions trade_amount_usd bnb_balance
        bnb_price_usd).commission_rate_used
    ∧ (calculate_commissions trade_amount_usd bnb_balance
        bnb_price_usd).exit_commission_usd =
      trade_amount_usd * (calculate_commissions trade_amount_usd bnb_balance
        bnb_price_usd).commission_rate_used
    ∧ (calculate_commissions trade_amount_usd bnb_balance
        bnb_price_usd).total_commission_usd =
      (calculate_commissions trade_amount_usd bnb_balance
        bnb_price_usd).entry_commission_usd +
      (calculate_commissions trade_amount_usd bnb_balance
        bnb_price_usd).exit_commission_usd
    ∧ (0.001 < bnb_balance →
        (calculate_commissions trade_amount_usd bnb_balance
            bnb_price_usd).commission_rate_used = 0.00075
        ∧ (calculate_commissions trade_amount_usd bnb_balance
            bnb_price_usd).has_bnb_discount = true
        ∧ (calculate_commissions trade_amount_usd bnb_balance
            bnb_price_usd).entry_commission_bnb =
          (calculate_commissions trade_amount_usd bnb_balance
            bnb_price_usd).entry_commission_usd / bnb_price_usd
        ∧ (calculate_commissions trade_amount_usd bnb_balance
            bnb_price_usd).exit_commission_bnb =
          (calculate_commissions trade_amount_usd bnb_balance
            bnb_price_usd).exit_commission_usd / bnb_price_usd
        ∧ (calculate_commissions trade_amount_usd bnb_balance
            bnb_price_usd).total_commission_bnb =
          (calculate_commissions trade_amount_usd bnb_balance
            bnb_price_usd).total_commission_usd / bnb_price_usd)
    ∧ (bnb_balance ≤ 0.001 →
        (calculate_commissions trade_amount_usd bnb_balance
            bnb_price_usd).commission_rate_used = 0.001
        ∧ (calculate_commissions trade_amount_usd bnb_balance
            bnb_price_usd).has_bnb_discount = false
        ∧ (calculate_commissions trade_amount_usd bnb_balance
            bnb_price_usd).entry_commission_bnb = 0
        ∧ (calculate_commissions trade_amount_usd bnb_balance
            bnb_price_usd).exit_commission_bnb = 0
        ∧ (calculate_commissions trade_amount_usd bnb_balance
            bnb_price_usd).total_commission_bnb = 0) := by
  by_cases hb : (0.001 : ℚ) < bnb_balance
  · simp [calculate_commissions, hb, not_le.mpr hb, commission_rate_with_bnb]
  · simp [calculate_commissions, hb, not_lt.mp hb, commission_rate_standard]

/-- Witness for C9: at BNB balance 0 the standard rate applies and the
fee-asset commission is zero. -/
theorem c9_witness :
    (calculate_commissions 1000 0 300).commission_rate_used = 0.001
    ∧ (calculate_commissions 1000 0 300).total_commission_bnb = 0 := by
  have h := (c9_calculate_commissions_spec 1000 0 300).2.2.2.2 (by norm_num)
  exact ⟨h.1, h.2.2.2.2⟩

/-- C10: whenever the BNB balance is non-negative and at most 0.001 (so the
discount — and with it any BNB-denominated commission — is off),
`calculate_bnb_requirement` reports a zero requirement, a zero
safety-adjusted requirement and a sufficient balance, and
`check_trade_viability` can never fail with the insufficient-BNB reason. -/
theorem c10_bnb_gate_zero_balance (trade_amount_usd target_profit_usd
    entry_price bnb_balance bnb_price_usd : ℚ)
    (hb0 : 0 ≤ bnb_balance) (hb : bnb_balance ≤ 0.001) :
    (calculate_bnb_requirement trade_amount_usd bnb_balance
        bnb_price_usd).required_bnb = 0
    ∧ (calculate_bnb_requirement trade_amount_usd bnb_balance
        bnb_price_usd).required_bnb_with_safety = 0
    ∧ (calculate_bnb_requirement trade_amount_usd bnb_balance
        bnb_price_usd).is_sufficient = true
    ∧ (check_trade_viability trade_amount_usd target_profit_usd entry_price
        bnb_balance bnb_price_usd 10).2.1 ≠ ViabilityReason.insufficient_bnb := by
  have hng : ¬ ((0.001 : ℚ) < bnb_balance) := not_lt.mpr hb
  have h1 : (calculate_bnb_requirement trade_amount_usd bnb_balance
      bnb_price_usd).required_bnb = 0 := by
    simp [calculate_bnb_requirement, calculate_commissions, hng]
  have h2 : (calculate_bnb_requirement trade_amount_usd bnb_balance
      bnb_price_usd).required_bnb_with_safety = 0 := by
    simp [calculate_bnb_requirement, calculate_commissions, hng]
  have h3 : (calculate_bnb_requirement trade_amount_usd bnb_balance
      bnb_price_usd).is_sufficient = true := by
    simp [calculate_bnb_requirement, calculate_commissions, hng,
      bnb_safety_multiplier]
    exact hb0
  refine ⟨h1, h2, h3, ?_⟩
  simp only [check_trade_viability, h3]
  split_ifs <;> simp_all

/-- Witness for C10 at trade amount 1000, target 50, entry 60000, zero BNB
balance, BNB price 300. -/
theorem c10_witness :
    (calculate_bnb_requirement 1000 0 300).required_bnb = 0
    ∧ (calculate_bnb_requirement 1000 0 300).required_bnb_with_safety = 0
    ∧ (calculate_bnb_requirement 1000 0 300).is_sufficient = true
    ∧ (check_trade_viability 1000 50 60000 0 300 10).2.1 ≠
        ViabilityReason.insufficient_bnb :=
  c10_bnb_gate_zero_balance 1000 50 60000 0 300 (by norm_num) (by norm_num)

/-- Counterexample to C5 as stated: the primary file parses and holds a
well-formed record "A" next to a malformed record "B"; the claim requires
"A" to survive the load, but the code aborts the whole primary load on the
malformed record and falls back to the (here absent) backup, so "A" is not
restored. -/
theorem c5_counterexample :
    hasBadRecord file_mixed.active_trades = true
    ∧ dictGet (load_state s_empty (FileState.parsed file_mixed)
        FileState.missing).active_trades "A" = none := by
  exact ⟨rfl, rfl⟩

/-- C5 amended: a position record that fails to parse aborts the primary
load entirely and triggers the backup fallback (it is not skipped
per-record); per-record tolerance holds only in the backup path, which
restores exactly the well-formed backup records and leaves the flags (and
market/balance data) as they were; a successful primary load resets both
flags to false; and with a corrupt primary and a backup holding one
well-formed and one malformed position, load recovers exactly the
well-formed one with both flags false. -/
theorem c5_amended :
    (∀ s backup f, hasBadRecord f.active_trades = true →
        load_state s (FileState.parsed f) backup = try_load_backup s backup)
    ∧ (∀ s backup,
        load_state s FileState.corrupt backup = try_load_backup s backup)
    ∧ (∀ s backup f, hasBadRecord f.active_trades = false →
        load_state s (FileState.parsed f) backup =
          { active_trades := goodRecords f.active_trades
            market_data := f.market_data
            balance_data := f.balance_data
            last_update := f.last_update
            bot_running := false
            websocket_connected := false })
    ∧ (∀ s f, try_load_backup s (FileState.parsed f) =
        { s with active_trades := goodRecords f.active_trades })
    ∧ (load_state s_empty FileState.corrupt
        (FileState.parsed file_mixed)).active_trades = [("A", record_a)]
    ∧ (load_state s_empty FileState.corrupt
        (FileState.parsed file_mixed)).bot_running = false
    ∧ (load_state s_empty FileState.corrupt
        (FileState.parsed file_mixed)).websocket_connected = false := by
  refine ⟨?_, ?_, ?_, ?_, ?_, ?_, ?_⟩
  · intro s backup f h
    simp [load_state, h]
  · intro s backup
    rfl
  · intro s backup f h
    simp [load_state, h]
  · intro s f
    rfl
  · rfl
  · rfl
  · rfl

/-- Witness for C5 (amended): a primary file containing a malformed record
sends the load down the backup path. -/
theorem c5_witness :
    hasBadRecord file_mixed.active_trades = true
    ∧ load_state s_one (FileState.parsed file_mixed) FileState.missing =
        try_load_backup s_one FileState.missing :=
  ⟨rfl, c5_amended.1 s_one FileState.missing file_mixed rfl⟩

/-- Counterexample to C6 as stated: two immediate saves of the same
in-memory state at times 1 and 2 carry identical `saved_at` stamps yet
produce different file contents, because `save_state` also bumps the
serialized `last_update` to the wall clock of each save. -/
theorem c6_counterexample :
    ((save_state s_one 1 0).2).saved_at =
        ((save_state (save_state s_one 1 0).1 2 0).2).saved_at
    ∧ (save_state s_one 1 0).2 ≠ (save_state (save_state s_one 1 0).1 2 0).2 := by
  refine ⟨rfl, ?_⟩
  intro h
  have hlu := congrArg StateFile.last_update h
  simp only [save_state, serialize_state] at hlu
  exact absurd hlu (by norm_num)

/-- C6 amended: two successive saves with no intervening mutation produce
file contents that agree on every serialized field except `saved_at` and
`last_update`; each save stamps `last_update` with its own wall-clock time
and `saved_at` with its own timestamp. -/
theorem c6_amended (s : SystemState) (t1 a1 t2 a2 : ℚ) :
    ((save_state s t1 a1).2).active_trades =
        ((save_state (save_state s t1 a1).1 t2 a2).2).active_trades
    ∧ ((save_state s t1 a1).2).market_data =
        ((save_state (save_state s t1 a1).1 t2 a2).2).market_data
    ∧ ((save_state s t1 a1).2).balance_data =
        ((save_state (save_state s t1 a1).1 t2 a2).2).balance_data
    ∧ ((save_state s t1 a1).2).bot_running =
        ((save_state (save_state s t1 a1).1 t2 a2).2).bot_running
    ∧ ((save_state s t1 a1).2).websocket_connected =
        ((save_state (save_state s t1 a1).1 t2 a2).2).websocket_connected
    ∧ ((save_state s t1 a1).2).last_update = t1
    ∧ ((save_state (save_state s t1 a1).1 t2 a2).2).last_update = t2
    ∧ ((save_state s t1 a1).2).saved_at = a1
    ∧ ((save_state (save_state s t1 a1).1 t2 a2).2).saved_at = a2 := by
  refine ⟨rfl, rfl, rfl, rfl, rfl, rfl, rfl, rfl, rfl⟩

/-- Counterexample to C7 as stated: the store already holds a record under
id "A"; `add_trade` with a different record of the same id replaces the
stored record instead of failing (the method has no failure outcome). -/
theorem c7_counterexample :
    record_a2.trade_id = "A"
    ∧ dictGet s_one.active_trades "A" = some record_a
    ∧ dictGet (add_trade s_one record_a2).1.active_trades "A" = some record_a2
    ∧ record_a2 ≠ record_a := by
  refine ⟨rfl, rfl, rfl, ?_⟩
  intro h
  have hep := congrArg TradeState.entry_price h
  simp only [record_a2, record_a, base_trade] at hep
  exact absurd hep (by norm_num)

/-- C7 amended: `add_trade` never fails — it unconditionally stores the
record under its id, replacing any record already stored under that id, and
triggers an immediate forced save. -/
theorem c7_amended (s : SystemState) (trade : TradeState) :
    dictGet (add_trade s trade).1.active_trades trade.trade_id = some trade
    ∧ (add_trade s trade).2 = true :=
  ⟨dictGet_dictInsert s.active_trades trade.trade_id trade, rfl⟩

/-- Counterexample to C8 as stated: `get_trade` returns the stored object
reference (heap address 0) rather than a copy, so mutating the record
through it — changing the current price from 100 to 200 — changes the
store's own record. -/
theorem c8_counterexample :
    HeapStore.get_trade hs_one "A" = some 0
    ∧ HeapStore.record hs_one "A" = some record_a
    ∧ HeapStore.record (HeapStore.mutate hs_one 0 record_a_mut) "A" =
        some record_a_mut
    ∧ record_a_mut ≠ record_a := by
  refine ⟨rfl, rfl, rfl, ?_⟩
  intro h
  have hcp := congrArg TradeState.current_price h
  simp only [record_a_mut, record_a, base_trade] at hcp
  exact absurd hcp (by norm_num)

/-- C8 amended: `get_trade` hands out the internal reference — exactly the
address stored in the trades dict — so a mutation through that reference is
visible when the store's own record is read again; `get_all_trades` returns
a shallow copy, a map holding the very same entries (record references) as
the store. -/
theorem c8_amended (s : HeapStore) (id : String) (a : Nat) (trade : TradeState)
    (h : HeapStore.get_trade s id = some a) (ha : a < s.heap.length) :
    dictGet s.active_trades id = some a
    ∧ HeapStore.record (HeapStore.mutate s a trade) id = some trade
    ∧ HeapStore.get_all_trades s = s.active_trades := by
  have hd : dictGet s.active_trades id = some a := h
  refine ⟨hd, ?_, rfl⟩
  simp only [HeapStore.record, HeapStore.mutate]
  rw [hd]
  exact heapRead_heapWrite s.heap a trade ha

/-- Witness for C8 (amended): mutating through the reference returned for id
"A" is visible in the store. -/
theorem c8_witness :
    HeapStore.get_trade hs_one "A" = some 0
    ∧ (0 : Nat) < hs_one.heap.length
    ∧ dictGet hs_one.active_trades "A" = some 0
    ∧ HeapStore.record (HeapStore.mutate hs_one 0 record_a2) "A" =
        some record_a2
    ∧ HeapStore.get_all_trades hs_one = hs_one.active_trades :=
  ⟨rfl, by decide,
    (c8_amended hs_one "A" 0 record_a2 rfl (by decide)).1,
    (c8_amended hs_one "A" 0 record_a2 rfl (by decide)).2.1,
    (c8_amended hs_one "A" 0 record_a2 rfl (by decide)).2.2⟩

end Tradebot
